import Mathlib

/-!
Shallow embedding of the OKE cluster lifecycle controller
(src/cluster/oke.go of paleti/pipeline) and proofs of its stated
properties.  External collaborators (the OCI client factory, the
container-engine manager, the VCN network manager, the model merge
functions) are abstracted as explicit result parameters: each embedded
operation takes the collaborator outcomes as inputs and returns the
value/state/trace the Go code produces for those outcomes.
-/

namespace Oke

/-- Errors produced or propagated by the controller.  `upstream` stands for
an arbitrary collaborator error; `wrapped` models `errors.Wrap` /
`errors.WithMessage` adding a stage message around an inner error;
`invalidVCN` is the `fmt.Errorf("Invalid VCN!")` of `CreatePreconfiguredVCN`;
`invalidNetworkConfig` is the LB-subnet-count error of
`PopulateNetworkValues`; `clusterNotReady` is `pkgErrors.ErrorClusterNotReady`. -/
inductive Err where
  | upstream : String → Err
  | invalidVCN : Err
  | invalidNetworkConfig : Err
  | clusterNotReady : Err
  | wrapped : String → Err → Err
deriving Repr, DecidableEq

/-- True exactly when the error has a stage-context message wrapped around an
inner error (the result of `errors.Wrap`/`errors.WithMessage`). -/
def Err.isWrapped : Err → Bool
  | .wrapped _ _ => true
  | _ => false

/-- The subnet inventory of a virtual network (`network.NetworkValues`). -/
structure NetworkValues where
  LBSubnetIDs : List String
  WNSubnetIDs : List String
deriving Repr, DecidableEq

/-- A node pool of the provider spec (`oracle.Cluster` node pool /
`modelOracle.NodePool`): name, shape, image, version, requested instance
count, per-subnet quantity, assigned subnet ids, pending-delete flag.
Go's `uint` counts are embedded as `Nat`. -/
structure NodePool where
  name : String
  shape : String
  image : String
  version : String
  count : Nat
  quantityPerSubnet : Nat
  subnets : List String
  delete : Bool
deriving Repr, DecidableEq

/-- The provider-specific spec (`oracle.Cluster` request object /
`modelOracle.Cluster`): version, virtual-network id, the two LB subnet
ids, the node pools, and the cluster-level deleting flag. -/
structure OracleCluster where
  version : String
  vcnID : String
  lbSubnetID1 : String
  lbSubnetID2 : String
  nodePools : List NodePool
  delete : Bool
deriving Repr, DecidableEq

/-- Embedding of `GetPoolQuantityValues` (src/cluster/oke.go:528-545): quantityPerSubnet
and subnet ids for a requested instance count, given the network's worker
subnets.  Named returns `(qps, subnetIDS)` start at their zero values
`(0, [])`; the function returns them untouched when `count == 0` or fewer
than 3 worker subnets exist. -/
def GetPoolQuantityValues (count : Nat) (networkValues : NetworkValues) :
    Nat × List String :=
  if count = 0 ∨ networkValues.WNSubnetIDs.length < 3 then (0, [])
  else if count % 3 = 0 then (count / 3, networkValues.WNSubnetIDs.take 3)
  else if count % 2 = 0 then (count / 2, networkValues.WNSubnetIDs.take 2)
  else (count, networkValues.WNSubnetIDs.take 1)

/-- C1: `GetPoolQuantityValues` returns (0, no subnets) when `count = 0` or
fewer than 3 worker subnets are available; otherwise `count/3` over the
first 3 subnets when 3 divides `count`, else `count/2` over the first 2
when 2 divides `count`, else the full `count` over the first subnet. -/
theorem getPoolQuantityValues_spec (count : Nat) (nv : NetworkValues) :
    (count = 0 ∨ nv.WNSubnetIDs.length < 3 →
      GetPoolQuantityValues count nv = (0, [])) ∧
    (count ≠ 0 → 3 ≤ nv.WNSubnetIDs.length → count % 3 = 0 →
      GetPoolQuantityValues count nv = (count / 3, nv.WNSubnetIDs.take 3)) ∧
    (count ≠ 0 → 3 ≤ nv.WNSubnetIDs.length → count % 3 ≠ 0 → count % 2 = 0 →
      GetPoolQuantityValues count nv = (count / 2, nv.WNSubnetIDs.take 2)) ∧
    (count ≠ 0 → 3 ≤ nv.WNSubnetIDs.length → count % 3 ≠ 0 → count % 2 ≠ 0 →
      GetPoolQuantityValues count nv = (count, nv.WNSubnetIDs.take 1)) := by
  unfold GetPoolQuantityValues
  refine ⟨fun h => by simp [h], fun h1 h2 h3 => ?_, fun h1 h2 h3 h4 => ?_,
    fun h1 h2 h3 h4 => ?_⟩ <;>
    simp [h1, h3, Nat.not_lt.mpr h2] <;> simp [h4]

/-- Witness for C1 at `count = 6`, four worker subnets. -/
theorem getPoolQuantityValues_spec_witness :
    GetPoolQuantityValues 6 ⟨[], ["s1", "s2", "s3", "s4"]⟩ =
      (2, ["s1", "s2", "s3"]) :=
  (getPoolQuantityValues_spec 6 ⟨[], ["s1", "s2", "s3", "s4"]⟩).2.1
    (by decide) (by decide) (by decide)

/-- C2 counterexample: with `count = 5` and a single worker subnet the
function returns quantity 0 over 0 subnets, so `5 ≠ 0 × 0`: the invariant
`count = quantityPerSubnet × #subnets` fails. -/
theorem count_invariant_counterexample :
    ¬ (5 = (GetPoolQuantityValues 5 ⟨[], ["s1"]⟩).1 *
        (GetPoolQuantityValues 5 ⟨[], ["s1"]⟩).2.length) := by
  decide

/-- C2 (amended): whenever the distribution is non-degenerate — `count = 0`,
or at least 3 worker subnets are available — the requested count equals the
returned quantityPerSubnet times the number of assigned subnets. -/
theorem count_invariant (count : Nat) (nv : NetworkValues)
    (h : count = 0 ∨ 3 ≤ nv.WNSubnetIDs.length) :
    count = (GetPoolQuantityValues count nv).1 *
      (GetPoolQuantityValues count nv).2.length := by
  rcases h with h0 | h3
  · simp [GetPoolQuantityValues, h0]
  · unfold GetPoolQuantityValues
    rcases Nat.eq_zero_or_pos count with h0 | hpos
    · simp [h0]
    have hlen : ¬ nv.WNSubnetIDs.length < 3 := Nat.not_lt.mpr h3
    have hne : count ≠ 0 := Nat.pos_iff_ne_zero.mp hpos
    by_cases h3d : count % 3 = 0
    · have : (nv.WNSubnetIDs.take 3).length = 3 := by
        simp [List.length_take, Nat.min_eq_left h3]
      simp [hne, hlen, h3d, this]
      exact (Nat.div_mul_cancel (Nat.dvd_of_mod_eq_zero h3d)).symm
    · by_cases h2d : count % 2 = 0
      · have : (nv.WNSubnetIDs.take 2).length = 2 := by
          simp [List.length_take, Nat.min_eq_left (by omega : 2 ≤ nv.WNSubnetIDs.length)]
        simp [hne, hlen, h3d, h2d, this]
        exact (Nat.div_mul_cancel (Nat.dvd_of_mod_eq_zero h2d)).symm
      · have : (nv.WNSubnetIDs.take 1).length = 1 := by
          simp [List.length_take, Nat.min_eq_left (by omega : 1 ≤ nv.WNSubnetIDs.length)]
        simp [hne, hlen, h3d, h2d, this]

/-- Witness for the amended C2 at `count = 9` over 4 worker subnets. -/
theorem count_invariant_witness :
    9 = (GetPoolQuantityValues 9 ⟨[], ["s1", "s2", "s3", "s4"]⟩).1 *
      (GetPoolQuantityValues 9 ⟨[], ["s1", "s2", "s3", "s4"]⟩).2.length :=
  count_invariant 9 ⟨[], ["s1", "s2", "s3", "s4"]⟩ (Or.inr (by decide))

/-- The per-pool write of `PopulateNetworkValues` (oke.go:518-522):
`np.SetQuantityPerSubnet` and `np.SetSubnetIDs` from the distribution. -/
def populatePool (nv : NetworkValues) (np : NodePool) : NodePool :=
  let qs := GetPoolQuantityValues np.count nv
  { np with quantityPerSubnet := qs.1, subnets := qs.2 }

/-- Embedding of `PopulateNetworkValues` (oke.go:498-525).  The OCI client construction
and `m.GetNetworkValues(VCNID)` are abstracted as one parameter
`nvRes`: on their failure the Go code returns `(r, err)` with `r`
untouched.  On success it first sets the VCN id on the request, then
rejects any LB-subnet count other than 2, then sets both LB subnet ids and
rewrites every node pool from the distribution.  The Go function returns
the (mutated) request pointer in every case, so the embedding returns the
cluster alongside an optional error. -/
def PopulateNetworkValues (r : OracleCluster) (VCNID : String)
    (nvRes : Except Err NetworkValues) : OracleCluster × Option Err :=
  match nvRes with
  | .error e => (r, some e)
  | .ok nv =>
    let r := { r with vcnID := VCNID }
    if nv.LBSubnetIDs.length ≠ 2 then (r, some .invalidNetworkConfig)
    else
      let r := { r with lbSubnetID1 := nv.LBSubnetIDs[0]!,
                        lbSubnetID2 := nv.LBSubnetIDs[1]! }
      ({ r with nodePools := r.nodePools.map (populatePool nv) }, none)

/-- C4: given any subnet inventory the network query returns,
`PopulateNetworkValues` fails with the invalid-network-config error
whenever the LB-subnet count is not exactly 2 — for every node-pool
configuration — and on success assigns both LB subnet ids into the spec
and writes each pool's distribution result back into the pool. -/
theorem populateNetworkValues_spec (r : OracleCluster) (VCNID : String)
    (nv : NetworkValues) :
    (nv.LBSubnetIDs.length ≠ 2 →
      (PopulateNetworkValues r VCNID (.ok nv)).2 = some .invalidNetworkConfig) ∧
    (nv.LBSubnetIDs.length = 2 →
      (PopulateNetworkValues r VCNID (.ok nv)).2 = none ∧
      (PopulateNetworkValues r VCNID (.ok nv)).1.lbSubnetID1 = nv.LBSubnetIDs[0]! ∧
      (PopulateNetworkValues r VCNID (.ok nv)).1.lbSubnetID2 = nv.LBSubnetIDs[1]! ∧
      (PopulateNetworkValues r VCNID (.ok nv)).1.nodePools =
        r.nodePools.map (populatePool nv)) := by
  constructor
  · intro h
    simp [PopulateNetworkValues, h]
  · intro h
    simp [PopulateNetworkValues, h]

/-- Witness for C4: a 3-LB-subnet inventory is rejected; a 2-LB-subnet
inventory succeeds and writes the distribution for a 6-instance pool. -/
theorem populateNetworkValues_spec_witness :
    (PopulateNetworkValues
        ⟨"v1", "", "", "", [⟨"p", "sh", "im", "v1", 6, 0, [], false⟩], false⟩
        "vcn1" (.ok ⟨["lb1", "lb2", "lb3"], ["w1", "w2", "w3"]⟩)).2 =
      some .invalidNetworkConfig ∧
    (PopulateNetworkValues
        ⟨"v1", "", "", "", [⟨"p", "sh", "im", "v1", 6, 0, [], false⟩], false⟩
        "vcn1" (.ok ⟨["lb1", "lb2"], ["w1", "w2", "w3"]⟩)).1.nodePools =
      [⟨"p", "sh", "im", "v1", 6, 2, ["w1", "w2", "w3"], false⟩] := by
  refine ⟨(populateNetworkValues_spec _ "vcn1" _).1 (by decide), ?_⟩
  have h := (populateNetworkValues_spec
    ⟨"v1", "", "", "", [⟨"p", "sh", "im", "v1", 6, 0, [], false⟩], false⟩
    "vcn1" ⟨["lb1", "lb2"], ["w1", "w2", "w3"]⟩).2 (by decide)
  rw [h.2.2.2]
  decide

/-- C10: when `PopulateNetworkValues` rejects the LB-subnet count, the spec
it hands back has already been mutated: its VCN id field was set to the
supplied network id before the validation check ran, so a spec whose VCN id
differed from the supplied one is not returned unchanged. -/
theorem populateNetworkValues_mutates_on_error (r : OracleCluster)
    (VCNID : String) (nv : NetworkValues) (h : nv.LBSubnetIDs.length ≠ 2) :
    (PopulateNetworkValues r VCNID (.ok nv)).2.isSome = true ∧
    (PopulateNetworkValues r VCNID (.ok nv)).1 = { r with vcnID := VCNID } ∧
    (r.vcnID ≠ VCNID → (PopulateNetworkValues r VCNID (.ok nv)).1 ≠ r) := by
  refine ⟨by simp [PopulateNetworkValues, h], by simp [PopulateNetworkValues, h], ?_⟩
  intro hne heq
  apply hne
  have : (PopulateNetworkValues r VCNID (.ok nv)).1.vcnID = VCNID := by
    simp [PopulateNetworkValues, h]
  rw [← this, heq]

/-- Witness for C10 with a 1-LB-subnet inventory and a differing VCN id. -/
theorem populateNetworkValues_mutates_on_error_witness :
    (PopulateNetworkValues ⟨"v1", "old", "", "", [], false⟩ "vcn1"
        (.ok ⟨["lb1"], []⟩)).2.isSome = true ∧
    (PopulateNetworkValues ⟨"v1", "old", "", "", [], false⟩ "vcn1"
        (.ok ⟨["lb1"], []⟩)).1 ≠ ⟨"v1", "old", "", "", [], false⟩ := by
  have h := populateNetworkValues_mutates_on_error
    ⟨"v1", "old", "", "", [], false⟩ "vcn1" ⟨["lb1"], []⟩ (by decide)
  exact ⟨h.1, h.2.2 (by decide)⟩

/-- Embedding of `UpdateCluster` (oke.go:102-137).  `stored` is the persisted OKE model
`o.modelCluster.OKE`; `r` the update request's OKE properties; `nvRes` the
network-query outcome; `merge` abstracts
`modelOracle.CreateModelFromUpdateRequest`; `cmErr` the cluster-manager
construction outcome; `manage` the `ManageOKECluster` outcome on the merged
model.  The result is the persisted model after the call together with the
returned error: on every error path the Go code returns before touching
`o.modelCluster.OKE`; only after a successful apply does it filter out the
pools flagged for deletion and store the merged model. -/
def UpdateCluster (stored : OracleCluster) (r : OracleCluster)
    (nvRes : Except Err NetworkValues)
    (merge : OracleCluster → Except Err OracleCluster)
    (cmErr : Option Err) (manage : OracleCluster → Option Err) :
    OracleCluster × Option Err :=
  match (PopulateNetworkValues r stored.vcnID nvRes).2 with
  | some e => (stored, some e)
  | none =>
    match merge (PopulateNetworkValues r stored.vcnID nvRes).1 with
    | .error e => (stored, some e)
    | .ok m =>
      match cmErr with
      | some e => (stored, some e)
      | none =>
        match manage m with
        | some e => (stored, some e)
        | none =>
          ({ m with nodePools := m.nodePools.filter (fun np => !np.delete) },
            none)

/-- C3: whenever `UpdateCluster` returns an error — in particular when the
engine-apply call fails — the persisted pool list is unchanged: no
pending-delete pool is removed; pools are dropped from the stored model
only on the success path, after the apply call. -/
theorem updateCluster_error_preserves_pools (stored r : OracleCluster)
    (nvRes : Except Err NetworkValues)
    (merge : OracleCluster → Except Err OracleCluster)
    (cmErr : Option Err) (manage : OracleCluster → Option Err)
    (h : (UpdateCluster stored r nvRes merge cmErr manage).2.isSome = true) :
    (UpdateCluster stored r nvRes merge cmErr manage).1 = stored := by
  unfold UpdateCluster at h ⊢
  rcases hp : (PopulateNetworkValues r stored.vcnID nvRes).2 with _ | e
  · rcases hm : merge (PopulateNetworkValues r stored.vcnID nvRes).1 with e | m
    · simp [hp, hm]
    · rcases hc : cmErr with _ | e
      · rcases hg : manage m with _ | e
        · simp [hp, hm, hc, hg] at h
        · simp [hp, hm, hc, hg]
      · simp [hp, hm, hc]
  · simp [hp]

/-- Witness for C3: the apply call fails on a model holding one
pending-delete pool; the stored model keeps that pool. -/
theorem updateCluster_error_preserves_pools_witness :
    (UpdateCluster
        ⟨"v1", "vcn1", "lb1", "lb2", [⟨"p", "sh", "im", "v1", 3, 1, ["w1"], true⟩], false⟩
        ⟨"v1", "", "", "", [], false⟩
        (.ok ⟨["lb1", "lb2"], ["w1", "w2", "w3"]⟩)
        (fun c => .ok c) none (fun _ => some (.upstream "apply failed"))).1 =
      ⟨"v1", "vcn1", "lb1", "lb2", [⟨"p", "sh", "im", "v1", 3, 1, ["w1"], true⟩], false⟩ :=
  updateCluster_error_preserves_pools _ _ _ _ _ _ (by decide)

/-- The persisted cluster aggregate (`model.ClusterModel` together with the
fields of its `OKE` provider model that the read paths use).  The persisted
pool slice is `[]*modelOracle.NodePool`, so entries may be nil pointers,
embedded as `Option NodePool`. -/
structure ClusterModel where
  id : Nat
  name : String
  location : String
  status : String
  statusMessage : String
  distribution : String
  okeVersion : String
  okeNodePools : List (Option NodePool)
deriving Repr, DecidableEq

/-- Embedding of `getNodeCount` (oke.go:233-235). -/
def getNodeCount (np : NodePool) : Nat :=
  np.quantityPerSubnet * np.subnets.length

/-- One entry of `pkgCluster.NodePoolStatus` as `GetStatus` builds it
(oke.go:207-215). -/
structure NodePoolStatus where
  count : Nat
  autoscaling : Bool
  minCount : Nat
  maxCount : Nat
  instanceType : String
  image : String
  version : String
deriving Repr, DecidableEq

/-- The `NodePoolStatus` record that `GetStatus` constructs for one
non-nil pool. -/
def statusPoolEntry (np : NodePool) : NodePoolStatus :=
  { count := getNodeCount np, autoscaling := false,
    minCount := getNodeCount np, maxCount := getNodeCount np,
    instanceType := np.shape, image := np.image, version := np.version }

/-- The `map[string]*pkgCluster.NodePoolStatus` that `GetStatus` fills
(oke.go:203-217): iterate the persisted pool slice, skip nil pools, insert
by name (a later pool with the same name overwrites).  The Go map is
embedded as an association list with overwrite-on-insert. -/
def GetStatusNodePools (pools : List (Option NodePool)) :
    List (String × NodePoolStatus) :=
  pools.foldl
    (fun acc onp =>
      match onp with
      | none => acc
      | some np =>
          acc.filter (fun p => p.1 ≠ np.name) ++ [(np.name, statusPoolEntry np)])
    []

/-- The `pkgCluster.GetClusterStatusResponse` fields this core fills. -/
structure GetClusterStatusResponse where
  status : String
  statusMessage : String
  name : String
  location : String
  distribution : String
  version : String
  resourceID : Nat
  nodePools : List (String × NodePoolStatus)
deriving Repr, DecidableEq

/-- Embedding of `GetStatus` (oke.go:201-231): a pure projection of the
persisted aggregate; it performs no upstream call and cannot fail. -/
def GetStatus (m : ClusterModel) : GetClusterStatusResponse :=
  { status := m.status, statusMessage := m.statusMessage, name := m.name,
    location := m.location, distribution := m.distribution,
    version := m.okeVersion, resourceID := m.id,
    nodePools := GetStatusNodePools m.okeNodePools }

/-- Helper for C7: every entry of the folded pool map either was already in
the accumulator or stems from a non-nil pool of the list, carrying that
pool's status record. -/
theorem mem_getStatusNodePools_fold (pools : List (Option NodePool))
    (acc : List (String × NodePoolStatus)) (p : String × NodePoolStatus)
    (hmem : p ∈ pools.foldl
      (fun acc onp =>
        match onp with
        | none => acc
        | some np =>
            acc.filter (fun q => q.1 ≠ np.name) ++ [(np.name, statusPoolEntry np)])
      acc) :
    p ∈ acc ∨ ∃ np, some np ∈ pools ∧ p = (np.name, statusPoolEntry np) := by
  induction pools generalizing acc with
  | nil => exact Or.inl hmem
  | cons onp rest ih =>
    rw [List.foldl_cons] at hmem
    rcases ih _ hmem with hacc | ⟨np, hnp, hp⟩
    · cases onp with
      | none => exact Or.inl hacc
      | some np0 =>
        rcases List.mem_append.mp hacc with hfil | hnew
        · exact Or.inl (List.mem_filter.mp hfil).1
        · refine Or.inr ⟨np0, List.mem_cons_self _ _, ?_⟩
          simpa using hnew
    · exact Or.inr ⟨np, List.mem_cons_of_mem _ hnp, hp⟩

/-- C7: for every persisted aggregate, every node-pool entry `GetStatus`
reports stems from a non-nil persisted pool and carries a count computed as
quantityPerSubnet times the number of assigned subnets, autoscaling
disabled, and MinCount = MaxCount = count. -/
theorem getStatus_pool_counts (m : ClusterModel) (p : String × NodePoolStatus)
    (hmem : p ∈ (GetStatus m).nodePools) :
    ∃ np, some np ∈ m.okeNodePools ∧ p.1 = np.name ∧
      p.2.count = np.quantityPerSubnet * np.subnets.length ∧
      p.2.autoscaling = false ∧
      p.2.minCount = p.2.count ∧ p.2.maxCount = p.2.count := by
  have h := mem_getStatusNodePools_fold m.okeNodePools [] p hmem
  rcases h with habs | ⟨np, hnp, hp⟩
  · simp at habs
  · exact ⟨np, hnp, by rw [hp], by rw [hp]; rfl, by rw [hp]; rfl,
      by rw [hp]; rfl, by rw [hp]; rfl⟩

/-- Witness for C7 on an aggregate with a nil entry and one pool of
quantity 3 over 2 subnets: the reported entry has count 6, autoscaling
off, min = max = 6. -/
theorem getStatus_pool_counts_witness :
    ∃ np, some np ∈ [none, some (⟨"p", "sh", "im", "v1", 6, 3, ["w1", "w2"], false⟩ : NodePool)] ∧
      "p" = np.name ∧
      (6 : Nat) = np.quantityPerSubnet * np.subnets.length ∧
      false = false ∧ (6 : Nat) = 6 ∧ (6 : Nat) = 6 := by
  have h := getStatus_pool_counts
    ⟨1, "c", "loc", "RUNNING", "", "oke", "v1",
      [none, some ⟨"p", "sh", "im", "v1", 6, 3, ["w1", "w2"], false⟩]⟩
    ("p", ⟨6, false, 6, 6, "sh", "im", "v1"⟩) (by decide)
  simp at h
  simp [h]

/-- The live cluster object the container-engine client returns
(`containerengine.Cluster`): its lifecycle state and Kubernetes endpoint. -/
structure LiveCluster where
  lifecycleState : String
  endpointKubernetes : String
deriving Repr, DecidableEq

/-- One entry of `pkgCluster.NodeDetails` as `GetClusterDetails` builds it
(oke.go:367-373). -/
structure NodeDetails where
  version : String
  count : Nat
  minCount : Nat
  maxCount : Nat
deriving Repr, DecidableEq

/-- The `pkgCluster.DetailsResponse` fields this core fills
(oke.go:378-386). -/
structure DetailsResponse where
  name : String
  id : Nat
  location : String
  masterVersion : String
  nodePools : List (String × NodeDetails)
  status : String
deriving Repr, DecidableEq

/-- The per-pool details map of `GetClusterDetails` (oke.go:363-375): same
iteration as `GetStatus`, values built from `getNodeCount`. -/
def detailsNodePools (pools : List (Option NodePool)) :
    List (String × NodeDetails) :=
  pools.foldl
    (fun acc onp =>
      match onp with
      | none => acc
      | some np =>
          acc.filter (fun p => p.1 ≠ np.name) ++
            [(np.name, ⟨np.version, getNodeCount np, getNodeCount np,
              getNodeCount np⟩)])
    []

/-- Embedding of `GetClusterDetails` (oke.go:337-387).  The OCI client, the
container-engine client and `ce.GetCluster` are abstracted as one outcome
`liveRes`; when a live cluster object is obtained, any lifecycle state
other than ACTIVE is rejected with `clusterNotReady` before the
detail view is assembled from the persisted aggregate. -/
def GetClusterDetails (m : ClusterModel) (liveRes : Except Err LiveCluster) :
    Except Err DetailsResponse :=
  match liveRes with
  | .error e => .error e
  | .ok cluster =>
    if cluster.lifecycleState ≠ "ACTIVE" then .error .clusterNotReady
    else
      let status := GetStatus m
      .ok { name := status.name, id := status.resourceID,
            location := status.location, masterVersion := m.okeVersion,
            nodePools := detailsNodePools m.okeNodePools,
            status := m.status }

/-- C5: for every persisted aggregate and every live cluster object the
engine returns, `GetClusterDetails` fails with the cluster-not-ready error
whenever the live lifecycle state is not ACTIVE, regardless of the
persisted status. -/
theorem getClusterDetails_not_active (m : ClusterModel) (live : LiveCluster)
    (h : live.lifecycleState ≠ "ACTIVE") :
    GetClusterDetails m (.ok live) = .error .clusterNotReady := by
  simp [GetClusterDetails, h]

/-- Witness for C5: persisted status says RUNNING yet the live state is
CREATING, so the call fails with cluster-not-ready. -/
theorem getClusterDetails_not_active_witness :
    GetClusterDetails ⟨1, "c", "loc", "RUNNING", "", "oke", "v1", []⟩
      (.ok ⟨"CREATING", "ep"⟩) = .error .clusterNotReady :=
  getClusterDetails_not_active _ _ (by decide)

/-- The observable calls `DeleteCluster` makes, in order: setting the
deleting flag on the stored spec, submitting a spec to the container-engine
manager, and asking the network manager to delete a VCN by id. -/
inductive DeleteEvent where
  | setDeleteFlag : DeleteEvent
  | engineApply : OracleCluster → DeleteEvent
  | vcnDelete : String → DeleteEvent
deriving Repr, DecidableEq

/-- Embedding of `DeleteCluster` (oke.go:140-161) as a trace-producing step
function.  `cmErr` is the cluster-manager construction outcome, `manage`
the `ManageOKECluster` outcome on the submitted spec, `vcnDel` the
`DeletePreconfiguredVCN` outcome.  The code first flags the stored spec as
deleting, then submits it, and reaches the VCN deletion only when the
engine call succeeded.  Result: the event trace, the stored spec after the
call, and the returned error. -/
def DeleteCluster (oke : OracleCluster) (cmErr : Option Err)
    (manage : OracleCluster → Option Err) (vcnDel : String → Option Err) :
    List DeleteEvent × OracleCluster × Option Err :=
  let m := { oke with delete := true }
  match cmErr with
  | some e => ([.setDeleteFlag], m, some e)
  | none =>
    match manage m with
    | some e => ([.setDeleteFlag, .engineApply m], m, some e)
    | none =>
      match vcnDel m.vcnID with
      | some e => ([.setDeleteFlag, .engineApply m, .vcnDelete m.vcnID], m, some e)
      | none => ([.setDeleteFlag, .engineApply m, .vcnDelete m.vcnID], m, none)

/-- C8: `DeleteCluster` first sets the deleting flag (the spec it submits
to the engine is the flag-carrying one), the trace is always a step of the
sequence flag-set, engine-apply, vcn-delete in that order, and when the
engine call fails the VCN deletion is never attempted. -/
theorem deleteCluster_order (oke : OracleCluster) (cmErr : Option Err)
    (manage : OracleCluster → Option Err) (vcnDel : String → Option Err)
    (hfail : (manage { oke with delete := true }).isSome = true) :
    ({ oke with delete := true } : OracleCluster).delete = true ∧
    ((DeleteCluster oke cmErr manage vcnDel).1 = [.setDeleteFlag] ∨
      (DeleteCluster oke cmErr manage vcnDel).1 =
        [.setDeleteFlag, .engineApply { oke with delete := true }]) ∧
    (∀ id, DeleteEvent.vcnDelete id ∉ (DeleteCluster oke cmErr manage vcnDel).1) := by
  refine ⟨rfl, ?_, ?_⟩ <;> unfold DeleteCluster
  · rcases hc : cmErr with _ | e
    · rcases hm : manage { oke with delete := true } with _ | e
      · rw [hm] at hfail; simp at hfail
      · simp [hm]
    · simp
  · rcases hc : cmErr with _ | e
    · rcases hm : manage { oke with delete := true } with _ | e
      · rw [hm] at hfail; simp at hfail
      · intro id; simp [hm]
    · intro id; simp

/-- Helper theorem for C8's success path: the trace of `DeleteCluster` is
always an initial part of flag-set, engine-apply on the flagged spec,
vcn-delete on that spec's VCN id — steps execute in exactly this order. -/
theorem deleteCluster_trace_shape (oke : OracleCluster) (cmErr : Option Err)
    (manage : OracleCluster → Option Err) (vcnDel : String → Option Err) :
    (DeleteCluster oke cmErr manage vcnDel).1 = [.setDeleteFlag] ∨
    (DeleteCluster oke cmErr manage vcnDel).1 =
      [.setDeleteFlag, .engineApply { oke with delete := true }] ∨
    (DeleteCluster oke cmErr manage vcnDel).1 =
      [.setDeleteFlag, .engineApply { oke with delete := true },
        .vcnDelete ({ oke with delete := true } : OracleCluster).vcnID] := by
  unfold DeleteCluster
  rcases hc : cmErr with _ | e
  · rcases hm : manage { oke with delete := true } with _ | e
    · rcases hv : vcnDel ({ oke with delete := true } : OracleCluster).vcnID with _ | e
      · simp [hm, hv]
      · simp [hm, hv]
    · simp [hm]
  · simp

/-- Witness for C8: with a failing engine call the trace stops right after
the engine submission and contains no VCN deletion. -/
theorem deleteCluster_order_witness :
    ((DeleteCluster ⟨"v1", "vcn1", "lb1", "lb2", [], false⟩ none
        (fun _ => some (.upstream "apply failed")) (fun _ => none)).1 =
      [.setDeleteFlag] ∨
     (DeleteCluster ⟨"v1", "vcn1", "lb1", "lb2", [], false⟩ none
        (fun _ => some (.upstream "apply failed")) (fun _ => none)).1 =
      [.setDeleteFlag, .engineApply ⟨"v1", "vcn1", "lb1", "lb2", [], true⟩]) ∧
    DeleteEvent.vcnDelete "vcn1" ∉
      (DeleteCluster ⟨"v1", "vcn1", "lb1", "lb2", [], false⟩ none
        (fun _ => some (.upstream "apply failed")) (fun _ => none)).1 := by
  have h := deleteCluster_order ⟨"v1", "vcn1", "lb1", "lb2", [], false⟩ none
    (fun _ => some (.upstream "apply failed")) (fun _ => none) (by decide)
  exact ⟨h.2.1, h.2.2 "vcn1"⟩

/-- A virtual network object as the network manager returns it: its id
pointer may be nil. -/
structure VCN where
  id : Option String
deriving Repr, DecidableEq

/-- The name `CreatePreconfiguredVCN` derives for the network-creation
request: `fmt.Sprintf("p-%s", name)` (oke.go:471). -/
def derivedVCNName (name : String) : String := "p-" ++ name

/-- Embedding of `CreatePreconfiguredVCN` (oke.go:463-483).  `create`
abstracts `m.Create` of the VCN manager; the first component of the result
records the name the request was issued with.  A returned network without
an id is rejected with `invalidVCN` (`fmt.Errorf("Invalid VCN!")`);
otherwise the id is returned. -/
def CreatePreconfiguredVCN (name : String)
    (create : String → Except Err VCN) : String × Except Err String :=
  let reqName := derivedVCNName name
  match create reqName with
  | .error e => (reqName, .error e)
  | .ok vcn =>
    match vcn.id with
    | none => (reqName, .error .invalidVCN)
    | some i => (reqName, .ok i)

/-- C9: the virtual-network creation request always uses the derived name
built from the fixed "p-" marker and the cluster name; the operation fails
with the invalid-VCN error whenever the returned network carries no id, and
returns the network's id otherwise. -/
theorem createPreconfiguredVCN_spec (name : String)
    (create : String → Except Err VCN) :
    (CreatePreconfiguredVCN name create).1 = "p-" ++ name ∧
    (∀ v, create ("p-" ++ name) = .ok v → v.id = none →
      (CreatePreconfiguredVCN name create).2 = .error .invalidVCN) ∧
    (∀ v i, create ("p-" ++ name) = .ok v → v.id = some i →
      (CreatePreconfiguredVCN name create).2 = .ok i) := by
  refine ⟨?_, ?_, ?_⟩
  · unfold CreatePreconfiguredVCN derivedVCNName
    rcases h : create ("p-" ++ name) with e | ⟨_ | i⟩ <;> simp [h]
  · intro v hv hid
    simp [CreatePreconfiguredVCN, derivedVCNName, hv, hid]
  · intro v i hv hid
    simp [CreatePreconfiguredVCN, derivedVCNName, hv, hid]

/-- Witness for C9 at cluster name "demo": the request name is "p-demo",
an id-less network is rejected. -/
theorem createPreconfiguredVCN_spec_witness :
    (CreatePreconfiguredVCN "demo" (fun _ => .ok ⟨none⟩)).1 = "p-demo" ∧
    (CreatePreconfiguredVCN "demo" (fun _ => .ok ⟨none⟩)).2 =
      .error .invalidVCN := by
  have h := createPreconfiguredVCN_spec "demo" (fun _ => .ok ⟨none⟩)
  exact ⟨h.1, h.2.1 ⟨none⟩ rfl rfl⟩

/-- Embedding of the whole create sequence:
`CreateOKEClusterFromRequest` (oke.go:42-76) followed by `CreateCluster`
(oke.go:79-99).  `create` abstracts the VCN manager's create call; `nvRes`
the network query inside `PopulateNetworkValues`; `modelRes` abstracts
`modelOracle.CreateModelFromCreateRequest`; `cmErr` the cluster-manager
construction; `engineErr` the `ManageOKECluster` outcome — wrapped by the
code with "error creating cluster"; `rbacErr` the `setClusterAdminRights`
outcome — wrapped with "error get/create clusterrolebinding".  The VCN and
network-population failures are returned as-is (oke.go:57-65). -/
def CreateClusterSequence (name : String) (create : String → Except Err VCN)
    (nvRes : Except Err NetworkValues) (r : OracleCluster)
    (modelRes : OracleCluster → Except Err OracleCluster)
    (cmErr : Option Err) (engineErr : Option Err) (rbacErr : Option Err) :
    Option Err :=
  match (CreatePreconfiguredVCN name create).2 with
  | .error e => some e
  | .ok vcnid =>
    match (PopulateNetworkValues r vcnid nvRes).2 with
    | some e => some e
    | none =>
      match modelRes (PopulateNetworkValues r vcnid nvRes).1 with
      | .error e => some e
      | .ok _ =>
        match cmErr with
        | some e => some e
        | none =>
          match engineErr with
          | some e => some (.wrapped "error creating cluster" e)
          | none =>
            match rbacErr with
            | some e => some (.wrapped "error get/create clusterrolebinding" e)
            | none => none

/-- C6 counterexample: when the virtual-network creation fails, the create
sequence aborts but hands the collaborator's error back verbatim — it is
not wrapped with any stage context, contradicting the claim that every
failing step's error is wrapped. -/
theorem createSequence_unwrapped_counterexample :
    CreateClusterSequence "c" (fun _ => .error (.upstream "boom"))
        (.ok ⟨["lb1", "lb2"], ["w1", "w2", "w3"]⟩)
        ⟨"v1", "", "", "", [], false⟩ (fun c => .ok c) none none none =
      some (.upstream "boom") ∧
    (Err.upstream "boom").isWrapped = false := by
  exact ⟨rfl, rfl⟩

/-- C6 (amended): every failing step of the create sequence aborts the
operation immediately with that step's error; the engine-apply and
RBAC-binding errors are wrapped with their stage context, while the
virtual-network-create and network-population errors are returned
unwrapped. -/
theorem createSequence_abort_spec (name : String)
    (create : String → Except Err VCN) (nvRes : Except Err NetworkValues)
    (r : OracleCluster) (modelRes : OracleCluster → Except Err OracleCluster)
    (cmErr : Option Err) (engineErr : Option Err) (rbacErr : Option Err) :
    (∀ e, (CreatePreconfiguredVCN name create).2 = .error e →
      CreateClusterSequence name create nvRes r modelRes cmErr engineErr rbacErr =
        some e) ∧
    (∀ vcnid e, (CreatePreconfiguredVCN name create).2 = .ok vcnid →
      (PopulateNetworkValues r vcnid nvRes).2 = some e →
      CreateClusterSequence name create nvRes r modelRes cmErr engineErr rbacErr =
        some e) ∧
    (∀ vcnid m e, (CreatePreconfiguredVCN name create).2 = .ok vcnid →
      (PopulateNetworkValues r vcnid nvRes).2 = none →
      modelRes (PopulateNetworkValues r vcnid nvRes).1 = .ok m →
      cmErr = none → engineErr = some e →
      CreateClusterSequence name create nvRes r modelRes cmErr engineErr rbacErr =
        some (.wrapped "error creating cluster" e)) ∧
    (∀ vcnid m e, (CreatePreconfiguredVCN name create).2 = .ok vcnid →
      (PopulateNetworkValues r vcnid nvRes).2 = none →
      modelRes (PopulateNetworkValues r vcnid nvRes).1 = .ok m →
      cmErr = none → engineErr = none → rbacErr = some e →
      CreateClusterSequence name create nvRes r modelRes cmErr engineErr rbacErr =
        some (.wrapped "error get/create clusterrolebinding" e)) := by
  refine ⟨?_, ?_, ?_, ?_⟩
  · intro e h
    simp [CreateClusterSequence, h]
  · intro vcnid e h hp
    simp [CreateClusterSequence, h, hp]
  · intro vcnid m e h hp hm hc he
    simp [CreateClusterSequence, h, hp, hm, hc, he]
  · intro vcnid m e h hp hm hc he hr
    simp [CreateClusterSequence, h, hp, hm, hc, he, hr]

/-- Witness for the amended C6: with an engine-apply failure the sequence
returns that error wrapped with "error creating cluster". -/
theorem createSequence_abort_spec_witness :
    CreateClusterSequence "c" (fun _ => .ok ⟨some "vcn1"⟩)
        (.ok ⟨["lb1", "lb2"], ["w1", "w2", "w3"]⟩)
        ⟨"v1", "", "", "", [], false⟩ (fun c => .ok c) none
        (some (.upstream "apply failed")) none =
      some (.wrapped "error creating cluster" (.upstream "apply failed")) := by
  have h := (createSequence_abort_spec "c" (fun _ => .ok ⟨some "vcn1"⟩)
    (.ok ⟨["lb1", "lb2"], ["w1", "w2", "w3"]⟩)
    ⟨"v1", "", "", "", [], false⟩ (fun c => .ok c) none
    (some (.upstream "apply failed")) none).2.2.1
  exact h "vcn1" ⟨"v1", "vcn1", "lb1", "lb2", [], false⟩ (.upstream "apply failed")
    rfl rfl rfl rfl rfl

end Oke
